import Mathlib

/-!
Shallow embedding of the leaf-aggregation witness-generator stage
(`core/bin/witness_generator/src/leaf_aggregation.rs`) of the zksync-era
prover pipeline, together with models of the external collaborators it
calls (relational store DAL, object store, verification-key registry and
the cryptographic computation library), the latter modelled from the
specification since their code is outside the provided source slice.
Machine integers are modelled as `Nat` with explicit `% 256` where u8
overflow matters; fallible operations return `Except String`.
-/

namespace LeafAgg

/-- Pipeline rounds, mirroring `zksync_types::proofs::AggregationRound`. -/
inductive AggregationRound
  | BasicCircuits
  | LeafAggregation
  | NodeAggregation
  | Scheduler
deriving DecidableEq, Repr

/-- Successor round in the ordered pipeline (spec: PipelineRound ordered enum). -/
def next_round : AggregationRound → AggregationRound
  | AggregationRound.BasicCircuits => AggregationRound.LeafAggregation
  | AggregationRound.LeafAggregation => AggregationRound.NodeAggregation
  | AggregationRound.NodeAggregation => AggregationRound.Scheduler
  | AggregationRound.Scheduler => AggregationRound.Scheduler

/-- Wrapping 8-bit unsigned addition: Rust release-mode `u8 + u8`. -/
def u8_add (a b : Nat) : Nat := (a + b) % 256

/-- Opaque closed-form-input payload (`ZkSyncBaseLayerClosedFormInput`). -/
abbrev ZkSyncBaseLayerClosedFormInput := Nat

/-- Opaque recursion-queue simulator payload (`RecursionQueueSimulator`). -/
abbrev RecursionQueueSimulator := Nat

/-- Opaque base-layer proof payload. -/
structure ZkSyncBaseLayerProof where
  payload : Nat
deriving DecidableEq, Repr

/-- Opaque recursive-layer proof payload. -/
structure ZkSyncRecursiveLayerProof where
  payload : Nat
deriving DecidableEq, Repr

/-- Opaque base-layer verification key. -/
structure ZkSyncBaseLayerVerificationKey where
  val : Nat
deriving DecidableEq, Repr

/-- Opaque recursive-layer verification key. -/
structure ZkSyncRecursiveLayerVerificationKey where
  val : Nat
deriving DecidableEq, Repr

/-- Opaque leaf-parameters witness (`RecursionLeafParametersWitness`). -/
structure RecursionLeafParametersWitness where
  val : Nat
deriving DecidableEq, Repr

/-- Opaque recursive-layer circuit; `numeric_circuit_type` is the circuit id
used when persisting prover-input artifacts. -/
structure ZkSyncRecursiveLayerCircuit where
  numeric_circuit_type : Nat
  payload : Nat
deriving DecidableEq, Repr

/-- Proof variant tagged union, `FriProofWrapper` from `utils.rs`
(spec: ProofVariant over BaseLayerProof and RecursiveLayerProof). -/
inductive FriProofWrapper
  | Base (p : ZkSyncBaseLayerProof)
  | Recursive (p : ZkSyncRecursiveLayerProof)
deriving DecidableEq, Repr

/-- `ClosedFormInputWrapper` from `utils.rs`: field 0 is the vector of
closed-form inputs, field 1 the recursion-queue simulator. -/
structure ClosedFormInputWrapper where
  inputs : List ZkSyncBaseLayerClosedFormInput
  queue : RecursionQueueSimulator
deriving DecidableEq, Repr

/-- One aggregation triple `(u64, RecursionQueueSimulator, ZkSyncRecursiveLayerCircuit)`. -/
abbrev AggTriple := Nat × RecursionQueueSimulator × ZkSyncRecursiveLayerCircuit

/-- `LeafAggregationJobMetadata` from `zksync_types::proofs`. -/
structure LeafAggregationJobMetadata where
  id : Nat
  block_number : Nat
  circuit_id : Nat
  prover_job_ids_for_proofs : List Nat
deriving DecidableEq, Repr

/-- `LeafAggregationWitnessGeneratorJob` (source lines 49-56). -/
structure LeafAggregationWitnessGeneratorJob where
  circuit_id : Nat
  block_number : Nat
  closed_form_inputs : ClosedFormInputWrapper
  proofs : List ZkSyncBaseLayerProof
  base_vk : ZkSyncBaseLayerVerificationKey
  leaf_params : RecursionLeafParametersWitness
deriving DecidableEq, Repr

/-- `LeafAggregationArtifacts` (source lines 31-41). -/
structure LeafAggregationArtifacts where
  circuit_id : Nat
  block_number : Nat
  aggregations : List AggTriple
  closed_form_inputs : List ZkSyncBaseLayerClosedFormInput
deriving DecidableEq, Repr

/-- `BlobUrls` (source lines 43-47). -/
structure BlobUrls where
  circuit_ids_and_urls : List (Nat × String)
  aggregations_urls : String
deriving DecidableEq, Repr

/-- Association-list lookup used to model keyed store tables. -/
def alookup {α β : Type} [DecidableEq α] (k : α) : List (α × β) → Option β
  | [] => none
  | (k', v) :: rest => if k' = k then some v else alookup k rest

/-- Association-list upsert used to model keyed store tables. -/
def upsert {α β : Type} [DecidableEq α] (k : α) (v : β) : List (α × β) → List (α × β)
  | [] => [(k, v)]
  | (k', v') :: rest => if k' = k then (k, v) :: rest else (k', v') :: upsert k v rest

/-- Contents stored in the object store under a url. -/
inductive StoredBlob
  | circuitBlob (c : ZkSyncRecursiveLayerCircuit)
  | aggregationsBlob (xs : List AggTriple)
deriving DecidableEq, Repr

/-- State of the blob/object store: the closed-form-input table keyed by
(block number, circuit id), the proof table keyed by prover job id, and the
blobs written by this stage keyed by url. -/
structure ObjectStoreState where
  closed_form_inputs : List ((Nat × Nat) × ClosedFormInputWrapper)
  proofs : List (Nat × FriProofWrapper)
  blobs : List (String × StoredBlob)
deriving DecidableEq, Repr

/-- Write one blob to the object store and record its url. -/
def put_blob (st : ObjectStoreState) (url : String) (b : StoredBlob) : ObjectStoreState :=
  { st with blobs := (url, b) :: st.blobs }

/-- Url `url` holds a written blob in store state `st`. -/
def has_blob (st : ObjectStoreState) (url : String) : Prop :=
  (alookup url st.blobs).isSome = true

instance (st : ObjectStoreState) (url : String) : Decidable (has_blob st url) := by
  unfold has_blob
  infer_instance

/-- Terminal/queue status of a leaf-aggregation witness-generator job row. -/
inductive WitnessJobStatus
  | Queued
  | InProgress
  | Successful (elapsed : Nat)
  | Failed (error : String)
deriving DecidableEq, Repr

/-- One row of the leaf-aggregation witness-job table. -/
structure LeafAggregationJobRow where
  meta : LeafAggregationJobMetadata
  status : WitnessJobStatus
deriving DecidableEq, Repr

/-- One row of the downstream prover-job table, as created by
`insert_prover_jobs` (spec: insertDownstreamJobs(batch, (stageKey,url) list, round, attempt)). -/
structure ProverJobRow where
  block_number : Nat
  circuit_id : Nat
  circuit_blob_url : String
  aggregation_round : AggregationRound
  attempt : Nat
deriving DecidableEq, Repr

/-- State of the relational store: the three tables this stage touches. -/
structure DbState where
  leaf_aggregation_jobs : List LeafAggregationJobRow
  prover_jobs : List ProverJobRow
  node_aggregation_jobs : List ((Nat × Nat) × (Nat × Nat × String))
deriving DecidableEq, Repr

/-- Combined external world: relational store plus object store. -/
structure World where
  db : DbState
  store : ObjectStoreState
deriving DecidableEq, Repr

/-- Modelled from the spec: `insertDownstreamJobs(batchNumber, [(stageKey,url)], round, attempt)`
of the relational store (the DAL code is outside the source slice) — inserts
one prover-job row per (circuit id, url) entry, tagged with the given round
and attempt number. -/
def insert_prover_jobs (block_number : Nat) (circuit_ids_and_urls : List (Nat × String))
    (round : AggregationRound) (attempt : Nat) (db : DbState) : DbState :=
  { db with prover_jobs := db.prover_jobs ++
      circuit_ids_and_urls.map (fun cu =>
        { block_number := block_number, circuit_id := cu.1, circuit_blob_url := cu.2,
          aggregation_round := round, attempt := attempt }) }

/-- Modelled from the spec: `updateFanOutCounter(batchNumber, stageKey, count, attempt, aggregateUrl)`
of the relational store — upserts the fan-out counter row of the parent
node-aggregation job keyed by (batch, circuit id). -/
def update_node_aggregation_jobs_url (block_number circuit_id count attempt : Nat)
    (url : String) (db : DbState) : DbState :=
  { db with node_aggregation_jobs :=
      upsert (block_number, circuit_id) (count, attempt, url) db.node_aggregation_jobs }

/-- Modelled from the spec: `markSucceeded(jobId, elapsed)` of the relational
store — marks the leaf-aggregation witness-job row with the given id successful. -/
def mark_leaf_aggregation_as_successful (job_id elapsed : Nat) (db : DbState) : DbState :=
  { db with leaf_aggregation_jobs := db.leaf_aggregation_jobs.map (fun r =>
      if r.meta.id = job_id then { r with status := WitnessJobStatus.Successful elapsed } else r) }

/-- Modelled from the spec: `recordFailure(jobId, errorText)` of the relational
store — marks the leaf-aggregation witness-job row with the given id failed. -/
def mark_leaf_aggregation_job_failed (error : String) (job_id : Nat) (db : DbState) : DbState :=
  { db with leaf_aggregation_jobs := db.leaf_aggregation_jobs.map (fun r =>
      if r.meta.id = job_id then { r with status := WitnessJobStatus.Failed error } else r) }

/-- Modelled from the spec: `claimNextJob(stageKey)` of the relational store —
atomically claims the first Queued leaf-aggregation witness-job row, marking
it InProgress, and returns its metadata; returns nothing when no eligible row
exists. -/
def get_next_leaf_aggregation_job :
    List LeafAggregationJobRow → Option (LeafAggregationJobMetadata × List LeafAggregationJobRow)
  | [] => none
  | r :: rs =>
    if r.status = WitnessJobStatus.Queued then
      some (r.meta, { r with status := WitnessJobStatus.InProgress } :: rs)
    else
      match get_next_leaf_aggregation_job rs with
      | none => none
      | some (m, rs') => some (m, r :: rs')

/-- Commit a transaction: apply its sub-operations in order, atomically
producing the post-state from the pre-state (spec: beginTransaction/commit). -/
def commit (db : DbState) (ops : List (DbState → DbState)) : DbState :=
  ops.foldl (fun d f => f d) db

/-- Modelled from the spec (section 9): the fixed additive offset mapping a
base-layer circuit id to its recursive-layer (leaf) circuit id, from `utils.rs`. -/
def get_recursive_layer_circuit_id_for_base_layer (circuit_id : Nat) : Nat :=
  u8_add circuit_id 2

/-- Rendering of a round for blob keys. -/
def round_str : AggregationRound → String
  | AggregationRound.BasicCircuits => "basic_circuits"
  | AggregationRound.LeafAggregation => "leaf_aggregation"
  | AggregationRound.NodeAggregation => "node_aggregation"
  | AggregationRound.Scheduler => "scheduler"

/-- Url under which the aggregated simulator-state blob is stored. -/
def aggregations_url (block_number circuit_id depth : Nat) : String :=
  "aggregations_" ++ toString block_number ++ "_" ++ toString circuit_id ++ "_" ++ toString depth

/-- Url under which one next-layer prover-input circuit blob is stored. -/
def prover_input_url (block_number : Nat) (round : AggregationRound)
    (sequence_number circuit_id depth : Nat) : String :=
  "prover_input_" ++ toString block_number ++ "_" ++ round_str round ++ "_" ++
    toString sequence_number ++ "_" ++ toString circuit_id ++ "_" ++ toString depth

/-- Modelled from the spec: `save_node_aggregations_artifacts` from `utils.rs` —
writes the aggregated simulator-state bundle as one blob keyed by
(batch number, downstream circuit id, depth) and returns its url. -/
def save_node_aggregations_artifacts (block_number circuit_id depth : Nat)
    (aggregations : List AggTriple) (st : ObjectStoreState) : ObjectStoreState × String :=
  let url := aggregations_url block_number circuit_id depth
  (put_blob st url (StoredBlob.aggregationsBlob aggregations), url)

/-- Recursion worker for `save_recursive_layer_prover_input_artifacts`,
carrying the running sequence number. -/
def save_prover_inputs_go (block_number : Nat) (round : AggregationRound) (depth : Nat) :
    Nat → List AggTriple → ObjectStoreState → ObjectStoreState × List (Nat × String)
  | _, [], st => (st, [])
  | seq, t :: ts, st =>
    let cid := t.2.2.numeric_circuit_type
    let url := prover_input_url block_number round seq cid depth
    let st1 := put_blob st url (StoredBlob.circuitBlob t.2.2)
    let rest := save_prover_inputs_go block_number round depth (seq + 1) ts st1
    (rest.1, (cid, url) :: rest.2)

/-- Modelled from the spec: `save_recursive_layer_prover_input_artifacts` from
`utils.rs` — writes one next-layer circuit blob per aggregation item and
returns the list of (circuit id, url) pairs. -/
def save_recursive_layer_prover_input_artifacts (block_number : Nat)
    (aggregations : List AggTriple) (round : AggregationRound) (depth : Nat)
    (st : ObjectStoreState) : ObjectStoreState × List (Nat × String) :=
  save_prover_inputs_go block_number round depth 0 aggregations st

/-- Rendering of a `ClosedFormInputKey` for the missing-artifacts error message. -/
def closed_form_key_str (block_number circuit_id : Nat) : String :=
  "ClosedFormInputKey block_number " ++ toString block_number ++
    " circuit_id " ++ toString circuit_id

/-- `get_artifacts` (source lines 266-278): fetch the ClosedFormInputBundle for
(block number, circuit id); a missing blob is a fatal error naming the key. -/
def get_artifacts (metadata : LeafAggregationJobMetadata) (st : ObjectStoreState) :
    Except String ClosedFormInputWrapper :=
  match alookup (metadata.block_number, metadata.circuit_id) st.closed_form_inputs with
  | some w => Except.ok w
  | none => Except.error ("leaf aggregation job artifacts missing: " ++
      closed_form_key_str metadata.block_number metadata.circuit_id)

/-- Modelled from the spec: `load_proofs_for_job_ids` from `utils.rs` — fetch
every referenced ProofVariant from the blob store; a missing proof is fatal. -/
def load_proofs_for_job_ids : List Nat → ObjectStoreState → Except String (List FriProofWrapper)
  | [], _ => Except.ok []
  | i :: is, st =>
    match alookup i st.proofs with
    | some p => (load_proofs_for_job_ids is st).map (fun ps => p :: ps)
    | none => Except.error ("proof missing for job " ++ toString i)

/-- The proof-variant check of `prepare_leaf_aggregation_job` (source lines
170-178): keep base-layer proofs, abort fatally at the first recursive-layer
proof. -/
def collect_base_proofs (id : Nat) : List FriProofWrapper → Except String (List ZkSyncBaseLayerProof)
  | [] => Except.ok []
  | FriProofWrapper.Base p :: rest => (collect_base_proofs id rest).map (fun ps => p :: ps)
  | FriProofWrapper.Recursive _ :: _ =>
    Except.error ("Expected only base proofs for leaf agg " ++ toString id)

/-- External dependencies of the stage: the verification-key registry and the
cryptographic computation library, both opaque deterministic functions
(spec section 6). -/
structure PrepDeps where
  get_base_layer_vk_for_circuit_type : Nat → ZkSyncBaseLayerVerificationKey
  get_recursive_layer_vk_for_circuit_type : Nat → ZkSyncRecursiveLayerVerificationKey
  compute_leaf_params : Nat → ZkSyncBaseLayerVerificationKey →
    ZkSyncRecursiveLayerVerificationKey → RecursionLeafParametersWitness
  create_leaf_witnesses : (Nat × RecursionQueueSimulator × List ZkSyncBaseLayerClosedFormInput) →
    List ZkSyncBaseLayerProof → ZkSyncBaseLayerVerificationKey →
    (Nat × RecursionLeafParametersWitness) →
    (List AggTriple × List ZkSyncBaseLayerClosedFormInput)

/-- `prepare_leaf_aggregation_job` (source lines 153-193): fetch the
closed-form bundle, fetch the referenced proofs, resolve the base vk at the
circuit id and the leaf vk at the wrapping-u8 offset circuit id + 2, enforce
the base-layer-only proof variant invariant, then compute leaf parameters. -/
def prepare_leaf_aggregation_job (deps : PrepDeps) (metadata : LeafAggregationJobMetadata)
    (st : ObjectStoreState) : Except String LeafAggregationWitnessGeneratorJob :=
  match get_artifacts metadata st with
  | Except.error e => Except.error e
  | Except.ok closed_form_input =>
    match load_proofs_for_job_ids metadata.prover_job_ids_for_proofs st with
    | Except.error e => Except.error e
    | Except.ok proofs =>
      let base_vk := deps.get_base_layer_vk_for_circuit_type metadata.circuit_id
      let leaf_vk := deps.get_recursive_layer_vk_for_circuit_type (u8_add metadata.circuit_id 2)
      match collect_base_proofs metadata.id proofs with
      | Except.error e => Except.error e
      | Except.ok base_proofs =>
        let leaf_params := deps.compute_leaf_params metadata.circuit_id base_vk leaf_vk
        Except.ok
          { circuit_id := metadata.circuit_id, block_number := metadata.block_number,
            closed_form_inputs := closed_form_input, proofs := base_proofs,
            base_vk := base_vk, leaf_params := leaf_params }

/-- Signature of the external `create_leaf_witnesses` function. -/
abbrev CreateLeafWitnessesFn :=
  (Nat × RecursionQueueSimulator × List ZkSyncBaseLayerClosedFormInput) →
    List ZkSyncBaseLayerProof → ZkSyncBaseLayerVerificationKey →
    (Nat × RecursionLeafParametersWitness) →
    (List AggTriple × List ZkSyncBaseLayerClosedFormInput)

/-- `process_leaf_aggregation_job` (source lines 195-226): invoke the external
witness-construction function on the job value and repackage its output. -/
def process_leaf_aggregation_job (create_leaf_witnesses : CreateLeafWitnessesFn)
    (job : LeafAggregationWitnessGeneratorJob) : LeafAggregationArtifacts :=
  let circuit_id := job.circuit_id
  let subsets := (circuit_id, job.closed_form_inputs.queue, job.closed_form_inputs.inputs)
  let leaf_params := (circuit_id, job.leaf_params)
  let r := create_leaf_witnesses subsets job.proofs job.base_vk leaf_params
  { circuit_id := circuit_id, block_number := job.block_number,
    aggregations := r.1, closed_form_inputs := r.2 }

/-- `process_job_sync` (source lines 79-91): log and run the pure computation. -/
def process_job_sync (create_leaf_witnesses : CreateLeafWitnessesFn)
    (leaf_job : LeafAggregationWitnessGeneratorJob) : LeafAggregationArtifacts :=
  process_leaf_aggregation_job create_leaf_witnesses leaf_job

/-- `process_job` (source lines 123-130): dispatch `process_job_sync` on a
blocking worker; it takes no store handle, so the world is untouched. -/
def process_job (create_leaf_witnesses : CreateLeafWitnessesFn) (w : World)
    (job : LeafAggregationWitnessGeneratorJob) : World × LeafAggregationArtifacts :=
  (w, process_job_sync create_leaf_witnesses job)

/-- The three sub-operations of the `update_database` transaction, in source
order: insert downstream prover jobs, update the parent fan-out counter row,
mark the current job successful. -/
def update_database_ops (elapsed block_number job_id : Nat) (blob_urls : BlobUrls)
    (circuit_id : Nat) : List (DbState → DbState) :=
  [ insert_prover_jobs block_number blob_urls.circuit_ids_and_urls
      AggregationRound.LeafAggregation 0,
    update_node_aggregation_jobs_url block_number
      (get_recursive_layer_circuit_id_for_base_layer circuit_id)
      blob_urls.circuit_ids_and_urls.length 0 blob_urls.aggregations_urls,
    mark_leaf_aggregation_as_successful job_id elapsed ]

/-- `update_database` (source lines 228-264): one relational-store transaction
committing the three sub-operations in order. -/
def update_database (db : DbState) (elapsed block_number job_id : Nat)
    (blob_urls : BlobUrls) (circuit_id : Nat) : DbState :=
  commit db (update_database_ops elapsed block_number job_id blob_urls circuit_id)

/-- `save_artifacts` (source lines 280-311): write the aggregated
simulator-state blob, then the per-item prover-input circuit blobs, and
return the collected urls. -/
def save_artifacts (artifacts : LeafAggregationArtifacts) (st : ObjectStoreState) :
    ObjectStoreState × BlobUrls :=
  let r1 := save_node_aggregations_artifacts artifacts.block_number
    (get_recursive_layer_circuit_id_for_base_layer artifacts.circuit_id) 0
    artifacts.aggregations st
  let r2 := save_recursive_layer_prover_input_artifacts artifacts.block_number
    artifacts.aggregations AggregationRound.LeafAggregation 0 r1.1
  (r2.1, { circuit_ids_and_urls := r2.2, aggregations_urls := r1.2 })

/-- `save_result` (source lines 132-150): persist every blob first, then run
the `update_database` transaction on the relational store. -/
def save_result (job_id elapsed : Nat) (artifacts : LeafAggregationArtifacts)
    (w : World) : World :=
  let block_number := artifacts.block_number
  let circuit_id := artifacts.circuit_id
  let r := save_artifacts artifacts w.store
  { db := update_database w.db elapsed block_number job_id r.2 circuit_id, store := r.1 }

/-- `save_failure` (source lines 114-121): record the error against the job id. -/
def save_failure (job_id : Nat) (error : String) (db : DbState) : DbState :=
  mark_leaf_aggregation_job_failed error job_id db

/-- `get_next_job` (source lines 101-112): claim the next eligible row and
return its id paired with the prepared job; a preparation failure is fatal.
Returns the produced value together with the post-claim relational state. -/
def get_next_job (deps : PrepDeps) (w : World) :
    Except String (Option (Nat × LeafAggregationWitnessGeneratorJob)) × DbState :=
  match get_next_leaf_aggregation_job w.db.leaf_aggregation_jobs with
  | none => (Except.ok none, w.db)
  | some (metadata, rows') =>
    ((prepare_leaf_aggregation_job deps metadata w.store).map (fun job => some (metadata.id, job)),
      { w.db with leaf_aggregation_jobs := rows' })

/-- Modelled from the spec (sections 4.1 and 7): one cycle of the generic
JobProcessor loop from `zksync_queued_job_processor` — claim, prepare,
execute, then either `save_result` or `save_failure`. -/
def run_one_job (deps : PrepDeps) (elapsed : Nat) (w : World) : World :=
  match get_next_leaf_aggregation_job w.db.leaf_aggregation_jobs with
  | none => w
  | some (metadata, rows') =>
    let db1 : DbState := { w.db with leaf_aggregation_jobs := rows' }
    match prepare_leaf_aggregation_job deps metadata w.store with
    | Except.error e => { db := save_failure metadata.id e db1, store := w.store }
    | Except.ok job =>
      let artifacts := process_leaf_aggregation_job deps.create_leaf_witnesses job
      save_result metadata.id elapsed artifacts { db := db1, store := w.store }

/-- Concrete dependency bundle for evaluation: the registries return their
argument and the parameter computation records the resolved next-layer key. -/
def probeDeps : PrepDeps where
  get_base_layer_vk_for_circuit_type := fun n => { val := n }
  get_recursive_layer_vk_for_circuit_type := fun n => { val := n }
  compute_leaf_params := fun _ _ l => { val := l.val }
  create_leaf_witnesses := fun subsets _ _ _ =>
    ([(subsets.1, subsets.2.1, { numeric_circuit_type := 3, payload := 7 })], subsets.2.2)

/-- Second concrete dependency bundle, differing from `probeDeps` in every field. -/
def probeDeps2 : PrepDeps where
  get_base_layer_vk_for_circuit_type := fun n => { val := n + 1 }
  get_recursive_layer_vk_for_circuit_type := fun n => { val := n + 1 }
  compute_leaf_params := fun _ _ l => { val := l.val + 1 }
  create_leaf_witnesses := fun subsets _ _ _ => ([], subsets.2.2)

def mdW : LeafAggregationJobMetadata := ⟨7, 42, 3, [11]⟩

def cfiW : ClosedFormInputWrapper := ⟨[5], 9⟩

def storeW : ObjectStoreState := ⟨[((42, 3), cfiW)], [(11, FriProofWrapper.Base ⟨21⟩)], []⟩

def dbW : DbState := ⟨[⟨mdW, WitnessJobStatus.Queued⟩], [], []⟩

def wW : World := ⟨dbW, storeW⟩

def storeAbsentW : ObjectStoreState := ⟨[], [(11, FriProofWrapper.Base ⟨21⟩)], []⟩

def wAbsentW : World := ⟨dbW, storeAbsentW⟩

def storeRecW : ObjectStoreState := ⟨[((42, 3), cfiW)], [(11, FriProofWrapper.Recursive ⟨77⟩)], []⟩

def md254 : LeafAggregationJobMetadata := ⟨9, 1, 254, []⟩

def store254 : ObjectStoreState := ⟨[((1, 254), ⟨[], 0⟩)], [], []⟩

def job254 : LeafAggregationWitnessGeneratorJob := ⟨254, 1, ⟨[], 0⟩, [], ⟨254⟩, ⟨0⟩⟩

def artsW : LeafAggregationArtifacts := ⟨3, 42, [(0, 9, ⟨5, 13⟩)], [5]⟩

def jobW : LeafAggregationWitnessGeneratorJob := ⟨3, 42, cfiW, [⟨21⟩], ⟨3⟩, ⟨5⟩⟩

theorem alookup_upsert_self {α β : Type} [DecidableEq α] (k : α) (v : β) (l : List (α × β)) :
    alookup k (upsert k v l) = some v := by
  induction l with
  | nil => simp [upsert, alookup]
  | cons h t ih =>
    obtain ⟨k', v'⟩ := h
    by_cases hk : k' = k
    · simp [upsert, hk, alookup]
    · simp [upsert, hk, alookup, ih]

theorem alookup_isSome_of_mem {α β : Type} [DecidableEq α] (k : α) (v : β) (l : List (α × β))
    (h : (k, v) ∈ l) : (alookup k l).isSome = true := by
  induction l with
  | nil => cases h
  | cons p t ih =>
    obtain ⟨k', v'⟩ := p
    by_cases hk : k' = k
    · simp [alookup, hk]
    · rcases List.mem_cons.mp h with h1 | h1
      · exact absurd (congrArg Prod.fst h1).symm hk
      · simp only [alookup, hk, if_false]
        exact ih h1

theorem save_prover_inputs_go_blobs_mono (block : Nat) (round : AggregationRound) (depth : Nat)
    (ts : List AggTriple) :
    ∀ (seq : Nat) (st : ObjectStoreState) (u : String) (b : StoredBlob),
      (u, b) ∈ st.blobs → (u, b) ∈ (save_prover_inputs_go block round depth seq ts st).1.blobs := by
  induction ts with
  | nil =>
    intro seq st u b h
    simpa [save_prover_inputs_go] using h
  | cons t rest ih =>
    intro seq st u b h
    simp only [save_prover_inputs_go]
    exact ih (seq + 1) _ u b (List.mem_cons_of_mem _ h)

theorem save_prover_inputs_go_urls_written (block : Nat) (round : AggregationRound) (depth : Nat)
    (ts : List AggTriple) :
    ∀ (seq : Nat) (st : ObjectStoreState) (cu : Nat × String),
      cu ∈ (save_prover_inputs_go block round depth seq ts st).2 →
      has_blob (save_prover_inputs_go block round depth seq ts st).1 cu.2 := by
  induction ts with
  | nil =>
    intro seq st cu h
    simp [save_prover_inputs_go] at h
  | cons t rest ih =>
    intro seq st cu h
    simp only [save_prover_inputs_go] at h ⊢
    rcases List.mem_cons.mp h with h1 | h1
    · subst h1
      have hmem : (prover_input_url block round seq t.2.2.numeric_circuit_type depth,
          StoredBlob.circuitBlob t.2.2) ∈
          (save_prover_inputs_go block round depth (seq + 1) rest
            (put_blob st (prover_input_url block round seq t.2.2.numeric_circuit_type depth)
              (StoredBlob.circuitBlob t.2.2))).1.blobs := by
        exact save_prover_inputs_go_blobs_mono block round depth rest (seq + 1) _ _ _
          (List.mem_cons_self _ _)
      exact alookup_isSome_of_mem _ _ _ hmem
    · exact ih (seq + 1) _ cu h1

theorem load_proofs_recursive_cases (st : ObjectStoreState) (ids : List Nat)
    (h : ∃ i ∈ ids, ∃ q, alookup i st.proofs = some (FriProofWrapper.Recursive q)) :
    (∃ e, load_proofs_for_job_ids ids st = Except.error e) ∨
    (∃ ps, load_proofs_for_job_ids ids st = Except.ok ps ∧
      ∃ q, FriProofWrapper.Recursive q ∈ ps) := by
  induction ids with
  | nil =>
    obtain ⟨i, hi, _⟩ := h
    cases hi
  | cons a as ih =>
    obtain ⟨i, hi, q, hq⟩ := h
    rcases List.mem_cons.mp hi with rfl | hmem
    · cases hrec : load_proofs_for_job_ids as st with
      | error e =>
        left
        exact ⟨e, by simp [load_proofs_for_job_ids, hq, hrec, Except.map]⟩
      | ok ps =>
        right
        refine ⟨FriProofWrapper.Recursive q :: ps, ?_, q, List.mem_cons_self _ _⟩
        simp [load_proofs_for_job_ids, hq, hrec, Except.map]
    · cases hla : alookup a st.proofs with
      | none =>
        left
        exact ⟨"proof missing for job " ++ toString a, by simp [load_proofs_for_job_ids, hla]⟩
      | some p =>
        rcases ih ⟨i, hmem, q, hq⟩ with ⟨e, he⟩ | ⟨ps, hps, q', hq'⟩
        · left
          exact ⟨e, by simp [load_proofs_for_job_ids, hla, he, Except.map]⟩
        · right
          exact ⟨p :: ps, by simp [load_proofs_for_job_ids, hla, hps, Except.map],
            q', List.mem_cons_of_mem _ hq'⟩

theorem collect_base_proofs_error_of_recursive (id : Nat) (ps : List FriProofWrapper)
    (h : ∃ q, FriProofWrapper.Recursive q ∈ ps) :
    collect_base_proofs id ps =
      Except.error ("Expected only base proofs for leaf agg " ++ toString id) := by
  induction ps with
  | nil =>
    obtain ⟨q, hq⟩ := h
    cases hq
  | cons p rest ih =>
    obtain ⟨q, hq⟩ := h
    cases p with
    | Base b =>
      rcases List.mem_cons.mp hq with h1 | h1
      · exact absurd h1 (by simp)
      · simp [collect_base_proofs, ih ⟨q, h1⟩, Except.map]
    | Recursive r =>
      simp [collect_base_proofs]

theorem prepare_ok_fields (deps : PrepDeps) (metadata : LeafAggregationJobMetadata)
    (st : ObjectStoreState) (job : LeafAggregationWitnessGeneratorJob)
    (h : prepare_leaf_aggregation_job deps metadata st = Except.ok job) :
    job.base_vk = deps.get_base_layer_vk_for_circuit_type metadata.circuit_id
    ∧ job.leaf_params = deps.compute_leaf_params metadata.circuit_id
        (deps.get_base_layer_vk_for_circuit_type metadata.circuit_id)
        (deps.get_recursive_layer_vk_for_circuit_type (u8_add metadata.circuit_id 2)) := by
  cases hga : get_artifacts metadata st with
  | error e =>
    simp [prepare_leaf_aggregation_job, hga] at h
  | ok cfi =>
    cases hload : load_proofs_for_job_ids metadata.prover_job_ids_for_proofs st with
    | error e =>
      simp [prepare_leaf_aggregation_job, hga, hload] at h
    | ok proofs =>
      cases hcol : collect_base_proofs metadata.id proofs with
      | error e =>
        simp [prepare_leaf_aggregation_job, hga, hload, hcol] at h
      | ok base_proofs =>
        simp only [prepare_leaf_aggregation_job, hga, hload, hcol] at h
        injection h with h
        subst h
        exact ⟨rfl, rfl⟩

/-- C1: for every successful job, `save_result` advances state through one
relational-store transaction — the ordered commit of exactly three
sub-operations — that (a) inserts one downstream prover-job row per entry of
the persisted blob-reference set's `circuit_ids_and_urls` list, (b) updates
the parent fan-out counter row with exactly the number of inserted rows and
the aggregate-blob url, and (c) marks the current job id successful with its
elapsed duration. -/
theorem C1_save_result_state_advance (w : World) (job_id elapsed : Nat)
    (artifacts : LeafAggregationArtifacts) :
    (save_result job_id elapsed artifacts w).db =
      commit w.db (update_database_ops elapsed artifacts.block_number job_id
        (save_artifacts artifacts w.store).2 artifacts.circuit_id)
    ∧ (save_result job_id elapsed artifacts w).db.prover_jobs =
        w.db.prover_jobs ++ (save_artifacts artifacts w.store).2.circuit_ids_and_urls.map
          (fun cu =>
            { block_number := artifacts.block_number, circuit_id := cu.1,
              circuit_blob_url := cu.2,
              aggregation_round := AggregationRound.LeafAggregation, attempt := 0 })
    ∧ alookup (artifacts.block_number,
          get_recursive_layer_circuit_id_for_base_layer artifacts.circuit_id)
        (save_result job_id elapsed artifacts w).db.node_aggregation_jobs =
        some ((save_artifacts artifacts w.store).2.circuit_ids_and_urls.length, 0,
          (save_artifacts artifacts w.store).2.aggregations_urls)
    ∧ ∀ r ∈ (save_result job_id elapsed artifacts w).db.leaf_aggregation_jobs,
        r.meta.id = job_id → r.status = WitnessJobStatus.Successful elapsed := by
  refine ⟨rfl, rfl, ?_, ?_⟩
  · simpa [save_result, update_database, commit, update_database_ops,
      mark_leaf_aggregation_as_successful, update_node_aggregation_jobs_url,
      insert_prover_jobs] using alookup_upsert_self
        (artifacts.block_number, get_recursive_layer_circuit_id_for_base_layer artifacts.circuit_id)
        ((save_artifacts artifacts w.store).2.circuit_ids_and_urls.length, 0,
          (save_artifacts artifacts w.store).2.aggregations_urls)
        w.db.node_aggregation_jobs
  · intro r hr hid
    simp only [save_result, update_database, commit, update_database_ops, List.foldl,
      mark_leaf_aggregation_as_successful, update_node_aggregation_jobs_url,
      insert_prover_jobs] at hr
    obtain ⟨r0, hr0, rfl⟩ := List.mem_map.mp hr
    by_cases h0 : r0.meta.id = job_id
    · simp [h0]
    · simp only [h0, if_false] at hid

/-- C1 witness: at a concrete world and artifacts, the row for the processed
job id carries the Successful status with its elapsed duration after
`save_result`. -/
theorem C1_save_result_state_advance_witness :
    (⟨mdW, WitnessJobStatus.Successful 5⟩ : LeafAggregationJobRow).status =
      WitnessJobStatus.Successful 5 :=
  (C1_save_result_state_advance wW 7 5 artsW).2.2.2
    ⟨mdW, WitnessJobStatus.Successful 5⟩ (by decide) (by decide)

/-- C2 counterexample: running the state advance at a concrete input creates a
downstream prover-job row tagged `AggregationRound.LeafAggregation`, which is
the stage's own round and not the round after leaf aggregation. -/
theorem C2_round_counterexample :
    ((update_database ⟨[], [], []⟩ 5 42 7 ⟨[(3, "u")], "a"⟩ 1).prover_jobs.map
        (fun r => r.aggregation_round) = [AggregationRound.LeafAggregation])
    ∧ AggregationRound.LeafAggregation ≠ next_round AggregationRound.LeafAggregation := by
  exact ⟨rfl, by decide⟩

/-- C2 (amended): every downstream prover-job row created by the state advance
is tagged with `AggregationRound.LeafAggregation` — the stage's own round
label in the prover-job table — and with attempt number 0. -/
theorem C2_rows_round (db : DbState) (elapsed block_number job_id : Nat)
    (blob_urls : BlobUrls) (circuit_id : Nat) :
    ∀ r ∈ (update_database db elapsed block_number job_id blob_urls circuit_id).prover_jobs,
      r ∉ db.prover_jobs →
      r.aggregation_round = AggregationRound.LeafAggregation ∧ r.attempt = 0 := by
  intro r hr hnot
  simp only [update_database, commit, update_database_ops, List.foldl,
    insert_prover_jobs, update_node_aggregation_jobs_url,
    mark_leaf_aggregation_as_successful] at hr
  rcases List.mem_append.mp hr with h1 | h1
  · exact absurd h1 hnot
  · obtain ⟨cu, _, rfl⟩ := List.mem_map.mp h1
    exact ⟨rfl, rfl⟩

/-- C2 witness: the concrete freshly created row is tagged LeafAggregation
with attempt 0. -/
theorem C2_rows_round_witness :
    (⟨42, 3, "u", AggregationRound.LeafAggregation, 0⟩ : ProverJobRow).aggregation_round
        = AggregationRound.LeafAggregation
    ∧ (⟨42, 3, "u", AggregationRound.LeafAggregation, 0⟩ : ProverJobRow).attempt = 0 :=
  C2_rows_round ⟨[], [], []⟩ 5 42 7 ⟨[(3, "u")], "a"⟩ 1
    ⟨42, 3, "u", AggregationRound.LeafAggregation, 0⟩ (by decide) (by decide)

/-- C3: a job metadata whose referenced proofs resolve to at least one
recursive-layer proof makes `prepare_leaf_aggregation_job` fail fatally, and
the result is independent of the external dependency bundle — in particular
no stage-parameter computation and no witness computation runs. -/
theorem C3_recursive_proof_fatal (deps deps' : PrepDeps)
    (metadata : LeafAggregationJobMetadata) (st : ObjectStoreState)
    (h : ∃ i ∈ metadata.prover_job_ids_for_proofs,
      ∃ q, alookup i st.proofs = some (FriProofWrapper.Recursive q)) :
    (∃ e, prepare_leaf_aggregation_job deps metadata st = Except.error e)
    ∧ prepare_leaf_aggregation_job deps metadata st =
        prepare_leaf_aggregation_job deps' metadata st := by
  cases hga : get_artifacts metadata st with
  | error e =>
    refine ⟨⟨e, ?_⟩, ?_⟩
    · simp [prepare_leaf_aggregation_job, hga]
    · simp [prepare_leaf_aggregation_job, hga]
  | ok cfi =>
    rcases load_proofs_recursive_cases st metadata.prover_job_ids_for_proofs h with
      ⟨e, he⟩ | ⟨ps, hps, hq⟩
    · refine ⟨⟨e, ?_⟩, ?_⟩
      · simp [prepare_leaf_aggregation_job, hga, he]
      · simp [prepare_leaf_aggregation_job, hga, he]
    · have hc := collect_base_proofs_error_of_recursive metadata.id ps hq
      refine ⟨⟨"Expected only base proofs for leaf agg " ++ toString metadata.id, ?_⟩, ?_⟩
      · simp [prepare_leaf_aggregation_job, hga, hps, hc]
      · simp [prepare_leaf_aggregation_job, hga, hps, hc]

/-- C3 witness: with a concrete store holding one recursive-layer proof for
the referenced id, preparation yields the same fatal result under two
dependency bundles that differ in every computation function. -/
theorem C3_recursive_proof_fatal_witness :
    prepare_leaf_aggregation_job probeDeps mdW storeRecW =
      prepare_leaf_aggregation_job probeDeps2 mdW storeRecW :=
  (C3_recursive_proof_fatal probeDeps probeDeps2 mdW storeRecW
    ⟨11, by decide, ⟨77⟩, rfl⟩).2

/-- C4: `save_result` completes every blob write before the state-advance
transaction begins: the blob store handed to the transaction already holds a
blob for every returned url, and every downstream prover-job row the
transaction creates references one of those urls. -/
theorem C4_durability_ordering (w : World) (job_id elapsed : Nat)
    (artifacts : LeafAggregationArtifacts) :
    (save_result job_id elapsed artifacts w).store = (save_artifacts artifacts w.store).1
    ∧ (save_result job_id elapsed artifacts w).db =
        update_database w.db elapsed artifacts.block_number job_id
          (save_artifacts artifacts w.store).2 artifacts.circuit_id
    ∧ (∀ cu ∈ (save_artifacts artifacts w.store).2.circuit_ids_and_urls,
        has_blob (save_artifacts artifacts w.store).1 cu.2)
    ∧ ∀ r ∈ (save_result job_id elapsed artifacts w).db.prover_jobs,
        r ∉ w.db.prover_jobs →
        has_blob (save_artifacts artifacts w.store).1 r.circuit_blob_url := by
  have hwritten : ∀ cu ∈ (save_artifacts artifacts w.store).2.circuit_ids_and_urls,
      has_blob (save_artifacts artifacts w.store).1 cu.2 := by
    intro cu hcu
    simp only [save_artifacts, save_recursive_layer_prover_input_artifacts] at hcu ⊢
    exact save_prover_inputs_go_urls_written artifacts.block_number
      AggregationRound.LeafAggregation 0 artifacts.aggregations 0 _ cu hcu
  refine ⟨rfl, rfl, hwritten, ?_⟩
  intro r hr hnot
  simp only [save_result, update_database, commit, update_database_ops, List.foldl,
    insert_prover_jobs, update_node_aggregation_jobs_url,
    mark_leaf_aggregation_as_successful] at hr
  rcases List.mem_append.mp hr with h1 | h1
  · exact absurd h1 hnot
  · obtain ⟨cu, hcu, rfl⟩ := List.mem_map.mp h1
    exact hwritten cu hcu

/-- C4 witness: at a concrete world and artifacts, the url of the one created
downstream row holds a written blob in the pre-transaction store state. -/
theorem C4_durability_ordering_witness :
    has_blob (save_artifacts artsW wW.store).1
      (prover_input_url 42 AggregationRound.LeafAggregation 0 5 0) :=
  (C4_durability_ordering wW 7 5 artsW).2.2.1
    (5, prover_input_url 42 AggregationRound.LeafAggregation 0 5 0) (by decide)

/-- C5: when the closed-form-input blob for the metadata's (batch number,
circuit id) key is absent from the blob store, `prepare_leaf_aggregation_job`
fails fatally with an error naming the missing key, and a processing cycle
that claims this job creates no downstream prover-job rows. -/
theorem C5_missing_bundle_fatal (deps : PrepDeps) (elapsed : Nat) (w : World)
    (metadata : LeafAggregationJobMetadata) (rows' : List LeafAggregationJobRow)
    (hclaim : get_next_leaf_aggregation_job w.db.leaf_aggregation_jobs = some (metadata, rows'))
    (habsent : alookup (metadata.block_number, metadata.circuit_id)
      w.store.closed_form_inputs = none) :
    prepare_leaf_aggregation_job deps metadata w.store =
      Except.error ("leaf aggregation job artifacts missing: " ++
        closed_form_key_str metadata.block_number metadata.circuit_id)
    ∧ (run_one_job deps elapsed w).db.prover_jobs = w.db.prover_jobs := by
  have hga : get_artifacts metadata w.store =
      Except.error ("leaf aggregation job artifacts missing: " ++
        closed_form_key_str metadata.block_number metadata.circuit_id) := by
    simp [get_artifacts, habsent]
  have hprep : prepare_leaf_aggregation_job deps metadata w.store =
      Except.error ("leaf aggregation job artifacts missing: " ++
        closed_form_key_str metadata.block_number metadata.circuit_id) := by
    simp [prepare_leaf_aggregation_job, hga]
  refine ⟨hprep, ?_⟩
  simp [run_one_job, hclaim, hprep, save_failure, mark_leaf_aggregation_job_failed]

/-- C5 witness: at a concrete world whose closed-form blob is absent, the
prepared result is the fatal error naming the missing key. -/
theorem C5_missing_bundle_fatal_witness :
    prepare_leaf_aggregation_job probeDeps mdW wAbsentW.store =
      Except.error ("leaf aggregation job artifacts missing: " ++
        closed_form_key_str 42 3) :=
  (C5_missing_bundle_fatal probeDeps 5 wAbsentW mdW
    [⟨mdW, WitnessJobStatus.InProgress⟩] (by decide) rfl).1

/-- C6 counterexample: at circuit id 254, preparation resolves the next-layer
key by registry lookup at (254 + 2) mod 256 = 0, not at the integer offset
254 + 2 = 256; with a registry returning its argument and a parameter
computation recording the resolved key, the prepared job records key 0. -/
theorem C6_offset_counterexample :
    (prepare_leaf_aggregation_job probeDeps md254 store254).map
        (fun job => job.leaf_params.val) = Except.ok 0
    ∧ (0 : Nat) ≠ 254 + 2 :=
  ⟨rfl, by decide⟩

/-- C6 (amended): on success, `prepare_leaf_aggregation_job` resolves the
base-layer key by registry lookup at the circuit id and the next-layer key by
registry lookup at the wrapping 8-bit offset (circuit id + 2) mod 256, which
coincides with the integer offset circuit id + 2 exactly when the circuit id
is at most 253; both lookups are deterministic functions of the metadata. -/
theorem C6_vk_resolution (deps : PrepDeps) (metadata : LeafAggregationJobMetadata)
    (st : ObjectStoreState) (job : LeafAggregationWitnessGeneratorJob)
    (h : prepare_leaf_aggregation_job deps metadata st = Except.ok job) :
    job.base_vk = deps.get_base_layer_vk_for_circuit_type metadata.circuit_id
    ∧ job.leaf_params = deps.compute_leaf_params metadata.circuit_id
        (deps.get_base_layer_vk_for_circuit_type metadata.circuit_id)
        (deps.get_recursive_layer_vk_for_circuit_type (u8_add metadata.circuit_id 2))
    ∧ (metadata.circuit_id ≤ 253 →
        u8_add metadata.circuit_id 2 = metadata.circuit_id + 2) := by
  obtain ⟨h1, h2⟩ := prepare_ok_fields deps metadata st job h
  refine ⟨h1, h2, ?_⟩
  intro hle
  unfold u8_add
  omega

/-- C6 witness: at a concrete successful preparation the resolved keys have
the stated shape. -/
theorem C6_vk_resolution_witness :
    job254.base_vk = probeDeps.get_base_layer_vk_for_circuit_type md254.circuit_id
    ∧ job254.leaf_params = probeDeps.compute_leaf_params md254.circuit_id
        (probeDeps.get_base_layer_vk_for_circuit_type md254.circuit_id)
        (probeDeps.get_recursive_layer_vk_for_circuit_type (u8_add md254.circuit_id 2))
    ∧ (md254.circuit_id ≤ 253 → u8_add md254.circuit_id 2 = md254.circuit_id + 2) :=
  C6_vk_resolution probeDeps md254 store254 job254 rfl

/-- C7: the execute step is deterministic — two jobs equal in every field
(stage key, batch number, closed-form inputs, proofs, verification key and
leaf parameters) produce equal artifact bundles under the same external
computation function, so the output depends only on the job value. -/
theorem C7_process_deterministic (clw : CreateLeafWitnessesFn)
    (j1 j2 : LeafAggregationWitnessGeneratorJob)
    (h1 : j1.circuit_id = j2.circuit_id) (h2 : j1.block_number = j2.block_number)
    (h3 : j1.closed_form_inputs = j2.closed_form_inputs) (h4 : j1.proofs = j2.proofs)
    (h5 : j1.base_vk = j2.base_vk) (h6 : j1.leaf_params = j2.leaf_params) :
    process_leaf_aggregation_job clw j1 = process_leaf_aggregation_job clw j2 := by
  have hj : j1 = j2 := by
    cases j1
    cases j2
    simp_all
  rw [hj]

/-- C7 witness: concrete equal jobs give equal artifacts. -/
theorem C7_process_deterministic_witness :
    process_leaf_aggregation_job probeDeps.create_leaf_witnesses jobW =
      process_leaf_aggregation_job probeDeps.create_leaf_witnesses jobW :=
  C7_process_deterministic probeDeps.create_leaf_witnesses jobW jobW
    rfl rfl rfl rfl rfl rfl

/-- C8: the execute step performs no relational-store and no blob-store
operation — `process_job` leaves both components of the world unchanged, and
its artifacts are exactly the pure computation on the in-memory job value. -/
theorem C8_process_job_pure (clw : CreateLeafWitnessesFn) (w : World)
    (job : LeafAggregationWitnessGeneratorJob) :
    (process_job clw w job).1.db = w.db
    ∧ (process_job clw w job).1.store = w.store
    ∧ (process_job clw w job).2 = process_leaf_aggregation_job clw job :=
  ⟨rfl, rfl, rfl⟩

/-- C9: `get_next_job` returns nothing exactly when the store's atomic claim
yields no eligible metadata; when the claim yields metadata, the result is
the metadata's id paired with the prepared job (a preparation failure
propagating as the fatal result) over the post-claim relational state. -/
theorem C9_get_next_job_contract (deps : PrepDeps) (w : World) :
    ((get_next_job deps w).1 = Except.ok none ↔
      get_next_leaf_aggregation_job w.db.leaf_aggregation_jobs = none)
    ∧ ∀ metadata rows',
        get_next_leaf_aggregation_job w.db.leaf_aggregation_jobs = some (metadata, rows') →
        (get_next_job deps w).1 =
          (prepare_leaf_aggregation_job deps metadata w.store).map
            (fun job => some (metadata.id, job))
        ∧ (get_next_job deps w).2 = { w.db with leaf_aggregation_jobs := rows' } := by
  cases hg : get_next_leaf_aggregation_job w.db.leaf_aggregation_jobs with
  | none =>
    constructor
    · simp [get_next_job, hg]
    · intro metadata rows' hsome
      cases hsome
  | some p =>
    obtain ⟨metadata, rows'⟩ := p
    constructor
    · constructor
      · intro hok
        simp only [get_next_job, hg] at hok
        cases hp : prepare_leaf_aggregation_job deps metadata w.store with
        | error e => rw [hp] at hok; simp [Except.map] at hok
        | ok job => rw [hp] at hok; simp [Except.map] at hok
      · intro hnone
        cases hnone
    · intro m r hsome
      injection hsome with hsome
      have hfst := congrArg Prod.fst hsome
      have hsnd := congrArg Prod.snd hsome
      dsimp at hfst hsnd
      subst hfst
      subst hsnd
      exact ⟨by simp [get_next_job, hg], by simp [get_next_job, hg]⟩

/-- C9 witness: at a concrete world with one queued row, the returned value is
the claimed metadata's id paired with the prepared job. -/
theorem C9_get_next_job_contract_witness :
    (get_next_job probeDeps wW).1 =
      (prepare_leaf_aggregation_job probeDeps mdW wW.store).map
        (fun job => some (mdW.id, job)) :=
  ((C9_get_next_job_contract probeDeps wW).2 mdW
    [⟨mdW, WitnessJobStatus.InProgress⟩] (by decide)).1

/-- C10: the next-layer key id is the wrapping 8-bit sum circuit id + 2, so
for every metadata with circuit id at least 254 (and below 256) the lookup id
wraps to circuit id - 254 instead of denoting the integer circuit id + 2,
while for every circuit id at most 253 the wrapping sum equals the integer
sum — preparation is a faithful additive-offset lookup only up to 253. -/
theorem C10_u8_offset_overflow (deps : PrepDeps) (metadata : LeafAggregationJobMetadata)
    (st : ObjectStoreState) (job : LeafAggregationWitnessGeneratorJob)
    (hge : 254 ≤ metadata.circuit_id) (hlt : metadata.circuit_id < 256)
    (h : prepare_leaf_aggregation_job deps metadata st = Except.ok job) :
    u8_add metadata.circuit_id 2 = metadata.circuit_id - 254
    ∧ u8_add metadata.circuit_id 2 ≠ metadata.circuit_id + 2
    ∧ job.leaf_params = deps.compute_leaf_params metadata.circuit_id
        (deps.get_base_layer_vk_for_circuit_type metadata.circuit_id)
        (deps.get_recursive_layer_vk_for_circuit_type (metadata.circuit_id - 254))
    ∧ ∀ c ≤ 253, u8_add c 2 = c + 2 := by
  have hwrap : u8_add metadata.circuit_id 2 = metadata.circuit_id - 254 := by
    unfold u8_add
    omega
  have hne : u8_add metadata.circuit_id 2 ≠ metadata.circuit_id + 2 := by
    unfold u8_add
    omega
  obtain ⟨h1, h2⟩ := prepare_ok_fields deps metadata st job h
  refine ⟨hwrap, hne, ?_, ?_⟩
  · rw [h2, hwrap]
  · intro c hc
    unfold u8_add
    omega

/-- C10 witness: the concrete preparation at circuit id 254 exhibits the
wrapped lookup id 0 = 254 - 254. -/
theorem C10_u8_offset_overflow_witness :
    u8_add md254.circuit_id 2 = md254.circuit_id - 254
    ∧ u8_add md254.circuit_id 2 ≠ md254.circuit_id + 2
    ∧ job254.leaf_params = probeDeps.compute_leaf_params md254.circuit_id
        (probeDeps.get_base_layer_vk_for_circuit_type md254.circuit_id)
        (probeDeps.get_recursive_layer_vk_for_circuit_type (md254.circuit_id - 254))
    ∧ ∀ c ≤ 253, u8_add c 2 = c + 2 :=
  C10_u8_offset_overflow probeDeps md254 store254 job254 (by decide) (by decide) rfl

end LeafAgg
